import Mathlib

/-!
Shallow embedding of the Energymanager backend (OCPP 1.6 home-charger EMS).

Python floats are modelled as `ℚ`; Python `int` as `ℤ`/`ℕ`; `None` as
`Option`.  Local wall-clock time is modelled as a rational number of minutes
on a linear (DST-free) timeline, so that a calendar day is `1440` minutes and
`datetime.replace(hour, minute, 0, 0)` is arithmetic on `⌊now / 1440⌋`.
Source files: backend/scheduler.py, backend/price_provider.py,
backend/ocpp_cs.py, backend/main.py, backend/models.py.
-/

namespace EnergyManager

/-! ## Rounding helpers

Python `round(x, n)` rounds half to even; `decimal.Decimal.quantize` with
`ROUND_HALF_UP` rounds half away from zero.  Both are exact on `ℚ`. -/

/-- Round a rational to the nearest integer, ties to the even integer
(Python built-in `round`). -/
def roundHalfEven (x : ℚ) : ℤ :=
  if x - ⌊x⌋ < 1/2 then ⌊x⌋
  else if 1/2 < x - ⌊x⌋ then ⌊x⌋ + 1
  else if ⌊x⌋ % 2 = 0 then ⌊x⌋ else ⌊x⌋ + 1

/-- Round a rational to the nearest integer, ties away from zero
(`decimal.ROUND_HALF_UP`). -/
def roundHalfUpDec (x : ℚ) : ℤ :=
  if 0 ≤ x then ⌊x + 1/2⌋ else -⌊-x + 1/2⌋

/-- Python `round(x, 2)` (used on `target` in scheduler.control_loop). -/
def pyRound2 (x : ℚ) : ℚ := (roundHalfEven (x * 100) : ℚ) / 100

/-- Python `round(x, 3)` (used on session energy in ocpp_cs.on_meter). -/
def pyRound3 (x : ℚ) : ℚ := (roundHalfEven (x * 1000) : ℚ) / 1000

/-- backend/main.py `_round01`: `round(x * 10.0) / 10.0` (half-even ties). -/
def round01 (x : ℚ) : ℚ := (roundHalfEven (x * 10) : ℚ) / 10

/-- backend/ocpp_cs.py `_round_to_0p1`:
`float(Decimal(str(x)).quantize(Decimal("0.1"), rounding=ROUND_HALF_UP))`. -/
def round_to_0p1 (x : ℚ) : ℚ := (roundHalfUpDec (x * 10) : ℚ) / 10

/-! ## Charger limits and kW→A conversion (scheduler.py / ocpp_cs.py) -/

def MIN_KW : ℚ := 37/10

def MAX_KW : ℚ := 11

/-- scheduler.py `clamp_kw`: `max(MIN_KW, min(MAX_KW, float(x)))`. -/
def clamp_kw (x : ℚ) : ℚ := max MIN_KW (min MAX_KW x)

/-- ocpp_cs.py `amps_from_kw`: clamps `kw` to `[MIN_KW, MAX_KW]` and returns
`max(0.0, kw * 1000.0 / (max(1.0, voltage) * max(1, phases)))`. -/
def amps_from_kw (kw : ℚ) (phases : ℤ) (voltage : ℚ) : ℚ :=
  max 0 (clamp_kw kw * 1000 / (max 1 voltage * ((max 1 phases : ℤ) : ℚ)))

/-- ocpp_cs.py `push_charging_profile`: the ampere limit placed in the
charging-schedule period for a requested `target_kw`
(`target_kw` is clamped, converted by `amps_from_kw`, then rounded to 0.1 A). -/
def push_charging_profile_limit (target_kw : ℚ) (phases : ℤ) (voltage : ℚ) : ℚ :=
  round_to_0p1 (amps_from_kw (max MIN_KW (min MAX_KW target_kw)) phases voltage)

/-- main.py `clamp`: `max(lo, min(hi, x))`. -/
def clamp (x lo hi : ℚ) : ℚ := max lo (min hi x)

/-- main.py `CentralSystem.push_limit_kw`: the ampere limit sent in the
TxProfile, `max(6.0, _round01((kw * 1000.0) / (volt * ph)))`.  No kW clamp. -/
def push_limit_amps (kw : ℚ) (ph : ℤ) (volt : ℚ) : ℚ :=
  max 6 (round01 (kw * 1000 / (volt * (ph : ℚ))))

/-- main.py `set_kw` endpoint: the requested kW is clamped to `[0, 22]`
before `_apply_limit`/`push_limit_kw`. -/
def set_kw_request (kw : ℚ) : ℚ := clamp kw 0 22

/-! ## Eco mapping (scheduler.py) -/

def RAD_CLOUDY : ℚ := 200

def RAD_SUNNY : ℚ := 650

/-- scheduler.py `eco_kw_from_radiation`: linear interpolation between the
cloudy and sunny irradiance thresholds. -/
def eco_kw_from_radiation (avg_wm2 sunny_kw cloudy_kw : ℚ) : ℚ :=
  if avg_wm2 ≤ RAD_CLOUDY then cloudy_kw
  else if RAD_SUNNY ≤ avg_wm2 then sunny_kw
  else cloudy_kw + (avg_wm2 - RAD_CLOUDY) / (RAD_SUNNY - RAD_CLOUDY) * (sunny_kw - cloudy_kw)

/-! ## Deadline arithmetic (scheduler.py `next_dt`)

`now` is local wall-clock time in minutes (fractions allowed for
seconds/microseconds); `⌊now / 1440⌋ * 1440` is today's local midnight,
matching `now.replace(hour=hh, minute=mm, second=0, microsecond=0)`. -/

/-- scheduler.py `next_dt`: the next occurrence of local time `hh:mm`;
today's if still strictly ahead of `now`, else tomorrow's
(`if cand <= now: cand += timedelta(days=1)`). -/
def next_dt (now : ℚ) (hh mm : ℕ) : ℚ :=
  if (1440 * ⌊now / 1440⌋ + (hh * 60 + mm) : ℚ) ≤ now
  then 1440 * ⌊now / 1440⌋ + (hh * 60 + mm) + 1440
  else 1440 * ⌊now / 1440⌋ + (hh * 60 + mm)

/-- scheduler.py control_loop: `max(0.0, (cutoff - now_local).total_seconds() / 3600.0)`
in the minutes model (60 minutes per hour). -/
def hours_left (now : ℚ) (hh mm : ℕ) : ℚ := max 0 ((next_dt now hh mm - now) / 60)

/-! ## Price provider (price_provider.py) -/

/-- price_provider.py `median`: `0.0` on the empty list, else the middle of
the sorted values (mean of the two middles for even length). -/
def median (values : List ℚ) : ℚ :=
  if values.isEmpty then 0
  else
    let s := values.insertionSort (· ≤ ·)
    let n := s.length
    let m := n / 2
    if n % 2 = 1 then s.getD m 0 else (s.getD (m - 1) 0 + s.getD m 0) / 2

/-- scheduler.py `refresh_prices`, median part: filter the series to the
slots whose local calendar date is today's, take their prices, and apply
`median` only when that list is non-empty (`None` otherwise).  Timestamps are
abstract (`ℤ`); `localDate` stands for `ts.astimezone(tz).date()`. -/
def today_median (series : List (ℤ × ℚ)) (localDate : ℤ → ℤ) (today : ℤ) : Option ℚ :=
  let today_vals := (series.filter (fun p => localDate p.1 = today)).map (fun p => p.2)
  if today_vals.isEmpty then none else some (median today_vals)

/-- scheduler.py `refresh_prices`, current-price part: the price of the last
slot whose start is `≤ now`, scanning in order and stopping at the first
later slot (`for ts, price in series: if ts <= now: cur = price else: break`);
`None` when the series is empty or starts in the future. -/
def current_price : List (ℤ × ℚ) → ℤ → Option ℚ
  | [], _ => none
  | (ts, p) :: rest, now =>
    if ts ≤ now then some ((current_price rest now).getD p) else none

/-! ## Price fetch (price_provider.py `fetch_prices_ct_per_kwh`)

The HTTP layer is abstracted into an `Except` input: `.error` is any raised
fetch/decode failure (timeout, non-2xx via `raise_for_status`, JSON decode
error); `.ok` carries the decoded JSON document. -/

inductive Json where
  | num (q : ℚ)
  | str (s : String)
  | bool (b : Bool)
  | null
  | arr (items : List Json)
  | obj (fields : List (String × Json))

/-- Python `j.get(k)` on a dict (`none` when the key is absent or the value
is not a dict). -/
def Json.get : Json → String → Option Json
  | .obj fields, k => fields.lookup k
  | _, _ => none

/-- Python `int(x)` truncates toward zero. -/
def truncInt (q : ℚ) : ℤ := if 0 ≤ q then ⌊q⌋ else -⌊-q⌋

/-- Python `int(item[k])` inside the per-item `try`: fails (exception →
item skipped) when the key is missing or the value is not a number. -/
def Json.getInt (j : Json) (k : String) : Option ℤ :=
  match j.get k with
  | some (.num q) => some (truncInt q)
  | _ => none

/-- Python `float(item[k])` inside the per-item `try`. -/
def Json.getFloat (j : Json) (k : String) : Option ℚ :=
  match j.get k with
  | some (.num q) => some q
  | _ => none

/-- The `while slot < end` loop: 15-minute (900000 ms) slots starting at
`start`, strictly below `endT`. -/
def expand_slots (start endT : ℤ) (ct : ℚ) : List (ℤ × ℚ) :=
  (List.range (((endT - start).toNat + 899999) / 900000)).map
    (fun i => (start + 900000 * (i : ℤ), ct))

/-- One item of the aWATTar payload: read `start_timestamp`, `end_timestamp`
(ms), `marketprice` (EUR/MWh, converted by `/ 10` to ct/kWh) and expand to
15-minute slots; any failure skips the item (`except: continue`). -/
def parse_item (item : Json) : List (ℤ × ℚ) :=
  match item.getInt "start_timestamp", item.getInt "end_timestamp",
        item.getFloat "marketprice" with
  | some start, some endT, some eur => expand_slots start endT (eur / 10)
  | _, _, _ => []

/-- Milliseconds in 36 hours (the `±36h` window around `now`). -/
def WINDOW_MS : ℤ := 129600000

/-- price_provider.py `fetch_prices_ct_per_kwh` on a decoded response:
failure → `[]`; `data` not a list → `[]`; else parse items (skipping
malformed ones), sort by timestamp and keep the ±36h window around `now`
(`now` in ms UTC). -/
def fetch_prices_ct_per_kwh (resp : Except String Json) (now : ℤ) : List (ℤ × ℚ) :=
  match resp with
  | .error _ => []
  | .ok j =>
    let data : Option Json := match j with
      | .obj _ => j.get "data"
      | _ => some j
    match data with
    | some (.arr items) =>
      ((items.flatMap parse_item).insertionSort (fun a b => a.1 ≤ b.1)).filter
        (fun p => now - WINDOW_MS ≤ p.1 ∧ p.1 ≤ now + WINDOW_MS)
    | _ => []

/-! ## Charge-point state and the control-loop target (models.py / scheduler.py) -/

inductive Mode where
  | manual
  | off
  | max
  | price
  | eco
deriving DecidableEq

/-- models.py `ChargePointState`, restricted to the fields the control loop's
target computation and boost notification read.  The boost cutoff `"HH:MM"`
is carried pre-split into hour and minute. -/
structure ChargePointState where
  mode : Mode
  target_kw : ℚ
  soc : Option ℤ
  current_soc : Option ℤ
  boost_enabled : Bool
  boost_cutoff_hh : ℕ
  boost_cutoff_mm : ℕ
  boost_target_soc : ℤ
  boost_reached_notified : Bool
deriving DecidableEq

/-- scheduler.py control_loop:
`float(st.current_soc if st.current_soc is not None else (st.soc or 0))`. -/
def soc_now (st : ChargePointState) : ℚ := ((st.current_soc.getD (st.soc.getD 0) : ℤ) : ℚ)

/-- scheduler.py control_loop required-power formula:
`need_kwh = need_soc / 100 * battery_kwh`, efficiency clamped to `[0.5, 1]`,
`req_kw = (need_kwh / hours_left) / eff if need_kwh > 0 else 0.0`. -/
def req_kw (need_soc hl battery_kwh efficiency : ℚ) : ℚ :=
  let need_kwh := need_soc / 100 * battery_kwh
  let eff := max (1/2) (min 1 efficiency)
  if 0 < need_kwh then need_kwh / hl / eff else 0

/-- scheduler.py control_loop, `price` branch: `MAX_KW` iff the current
price is known, the median is known and `cur ≤ median`, else `MIN_KW`;
then raised to the power needed for 100 % SoC by the next 07:00. -/
def price_target (st : ChargePointState) (cur_price median_today : Option ℚ)
    (now battery_kwh efficiency : ℚ) : ℚ :=
  let base : ℚ :=
    match cur_price, median_today with
    | some c, some m => if c ≤ m then MAX_KW else MIN_KW
    | _, _ => MIN_KW
  let hl := hours_left now 7 0
  if 0 < hl then
    Max.max base (req_kw (max 0 (100 - soc_now st)) hl battery_kwh efficiency)
  else base

/-- scheduler.py control_loop, `eco` branch: the eco target, raised (when
boost is enabled and the cutoff is ahead) to the power needed to reach
`boost_target_soc` by the boost cutoff. -/
def eco_target (st : ChargePointState) (eco_kw now battery_kwh efficiency : ℚ) : ℚ :=
  if st.boost_enabled then
    let hl := hours_left now st.boost_cutoff_hh st.boost_cutoff_mm
    if 0 < hl then
      Max.max eco_kw
        (req_kw (max 0 ((st.boost_target_soc : ℚ) - soc_now st)) hl battery_kwh efficiency)
    else eco_kw
  else eco_kw

/-- scheduler.py control_loop per-charge-point target before the final
clamp: dispatch on the mode; the eco baseline is
`clamp_kw(eco_kw_from_radiation(avg, sunny, cloudy))` as in the loop head. -/
def compute_target (st : ChargePointState) (avg_wm2 sunny_kw cloudy_kw : ℚ)
    (cur_price median_today : Option ℚ) (now battery_kwh efficiency : ℚ) : ℚ :=
  match st.mode with
  | .manual => st.target_kw
  | .off => MIN_KW
  | .max => MAX_KW
  | .price => price_target st cur_price median_today now battery_kwh efficiency
  | .eco => eco_target st (clamp_kw (eco_kw_from_radiation avg_wm2 sunny_kw cloudy_kw))
      now battery_kwh efficiency

/-- scheduler.py control_loop: `target = clamp_kw(target)` followed by
`st.target_kw = round(target, 2)` — the setpoint recorded in the session
state and handed to `push_charging_profile`. -/
def loop_target_kw (st : ChargePointState) (avg_wm2 sunny_kw cloudy_kw : ℚ)
    (cur_price median_today : Option ℚ) (now battery_kwh efficiency : ℚ) : ℚ :=
  pyRound2 (clamp_kw (compute_target st avg_wm2 sunny_kw cloudy_kw cur_price median_today
    now battery_kwh efficiency))

/-! ## Session energy accounting (ocpp_cs.py) -/

/-- The session-accounting fields of models.py `ChargePointState` touched by
`on_start_tx` and the energy-register part of `on_meter`. -/
structure SessionState where
  tx_active : Bool
  session_start_kwh_reg : Option ℚ
  session_kwh : Option ℚ
  energy_kwh_total : Option ℚ
deriving DecidableEq

/-- ocpp_cs.py `on_start_tx` (non-exception path):
`session_start_kwh_reg = max(0.0, float(meter_start) / 1000.0)` (Wh → kWh),
`session_kwh = 0.0`, `tx_active = True`. -/
def on_start_tx (st : SessionState) (meter_start_wh : ℚ) : SessionState :=
  { st with
    tx_active := true
    session_start_kwh_reg := some (max 0 (meter_start_wh / 1000))
    session_kwh := some 0 }

/-- ocpp_cs.py `on_meter` energy-register extraction:
`max(0.0, v / 1000.0) if unit == "wh" else max(0.0, v)`. -/
def energy_from_sample (v : ℚ) (unit_wh : Bool) : ℚ :=
  if unit_wh then max 0 (v / 1000) else max 0 v

/-- ocpp_cs.py `on_meter`, the energy-register branch: store the register
(kWh) in `energy_kwh_total`, and when a transaction is active with a known
start register set
`session_kwh = round(max(0.0, energy_kwh - session_start_kwh_reg), 3)`. -/
def on_meter_energy (st : SessionState) (energy_kwh : ℚ) : SessionState :=
  let st1 := { st with energy_kwh_total := some energy_kwh }
  if st1.tx_active then
    match st1.session_start_kwh_reg with
    | some start => { st1 with session_kwh := some (pyRound3 (max 0 (energy_kwh - start))) }
    | none => st1
  else st1

/-! ## Boost goal-reached notification (scheduler.py control_loop) -/

/-- One control-loop pass over the eco-mode boost-notification check for one
charge point: fires (count 1) exactly when boost is enabled, the SoC is
known and `current_soc ≥ boost_target_soc` while not yet notified, setting
`boost_reached_notified = True`.  Returns the new flag and how many
notification tasks this pass scheduled. -/
def notify_step (notified : Bool) (boost_enabled : Bool) (current_soc : Option ℤ)
    (target_soc : ℤ) : Bool × ℕ :=
  if boost_enabled then
    match current_soc with
    | some s => if target_soc ≤ s ∧ notified = false then (true, 1) else (notified, 0)
    | none => (notified, 0)
  else (notified, 0)

/-- A sequence of control-loop passes within one boost activation (boost
stays enabled): each pass observes the then-current SoC reading and runs the
notification check; the flag is threaded through, the scheduled-notification
counts are summed. -/
def run_notify (notified : Bool) (target_soc : ℤ) : List (Option ℤ) → Bool × ℕ
  | [] => (notified, 0)
  | o :: rest =>
    let p := notify_step notified true o target_soc
    let r := run_notify p.1 target_soc rest
    (r.1, p.2 + r.2)

/-! ## Helper lemmas on the rounding functions -/

theorem floor_le_roundHalfEven (x : ℚ) : ⌊x⌋ ≤ roundHalfEven x := by
  unfold roundHalfEven
  split_ifs <;> omega

theorem roundHalfEven_le_ceil (x : ℚ) : roundHalfEven x ≤ ⌈x⌉ := by
  have hfc : ⌊x⌋ ≤ ⌈x⌉ := Int.floor_le_ceil x
  have key : ∀ h : ¬(x - ⌊x⌋ < 1/2), ⌊x⌋ + 1 ≤ ⌈x⌉ := by
    intro h
    have h1 : (⌊x⌋ : ℚ) < x := by
      have := not_lt.mp h
      linarith
    have h2 : x ≤ (⌈x⌉ : ℚ) := Int.le_ceil x
    have : (⌊x⌋ : ℚ) < (⌈x⌉ : ℚ) := lt_of_lt_of_le h1 h2
    have : ⌊x⌋ < ⌈x⌉ := by exact_mod_cast this
    omega
  unfold roundHalfEven
  split_ifs with h1 h2 h3
  · exact hfc
  · exact key h1
  · exact hfc
  · exact key h1

theorem roundHalfEven_nonneg (x : ℚ) (h : 0 ≤ x) : 0 ≤ roundHalfEven x := by
  have : (0 : ℤ) ≤ ⌊x⌋ := Int.floor_nonneg.mpr h
  exact this.trans (floor_le_roundHalfEven x)

theorem roundHalfEven_eq_of_lt (x : ℚ) (n : ℤ) (h1 : (n : ℚ) ≤ x) (h2 : x - n < 1/2) :
    roundHalfEven x = n := by
  have hf : ⌊x⌋ = n := Int.floor_eq_iff.mpr ⟨h1, by linarith⟩
  unfold roundHalfEven
  rw [hf, if_pos (by linarith)]

theorem roundHalfEven_eq_of_gt (x : ℚ) (n : ℤ) (h1 : (n : ℚ) - 1/2 < x) (h2 : x ≤ n) :
    roundHalfEven x = n := by
  rcases eq_or_lt_of_le h2 with heq | hlt
  · exact roundHalfEven_eq_of_lt x n heq.ge (by rw [heq]; norm_num)
  · have hf : ⌊x⌋ = n - 1 := Int.floor_eq_iff.mpr ⟨by push_cast; linarith, by push_cast; linarith⟩
    unfold roundHalfEven
    rw [hf, if_neg (by push_cast; intro hc; linarith), if_pos (by push_cast; linarith)]
    omega

theorem roundHalfUpDec_of_nonneg (x : ℚ) (h : 0 ≤ x) : roundHalfUpDec x = ⌊x + 1/2⌋ :=
  if_pos h

theorem clamp_kw_mem (x : ℚ) : MIN_KW ≤ clamp_kw x ∧ clamp_kw x ≤ MAX_KW := by
  refine ⟨le_max_left _ _, ?_⟩
  unfold clamp_kw MIN_KW MAX_KW
  exact max_le (by norm_num) (min_le_left _ _)

theorem pyRound2_bounds (x : ℚ) (h1 : MIN_KW ≤ x) (h2 : x ≤ MAX_KW) :
    MIN_KW ≤ pyRound2 x ∧ pyRound2 x ≤ MAX_KW := by
  have hlo : (370 : ℤ) ≤ roundHalfEven (x * 100) := by
    refine le_trans (Int.le_floor.mpr ?_) (floor_le_roundHalfEven _)
    unfold MIN_KW at h1
    push_cast
    linarith
  have hhi : roundHalfEven (x * 100) ≤ (1100 : ℤ) := by
    refine le_trans (roundHalfEven_le_ceil _) (Int.ceil_le.mpr ?_)
    unfold MAX_KW at h2
    push_cast
    linarith
  have hloq : (370 : ℚ) ≤ (roundHalfEven (x * 100) : ℚ) := by exact_mod_cast hlo
  have hhiq : (roundHalfEven (x * 100) : ℚ) ≤ 1100 := by exact_mod_cast hhi
  unfold pyRound2 MIN_KW MAX_KW
  constructor <;> linarith

/-- C1: For every control-loop tick and every charge point, whatever its mode
(manual, off, max, price, eco) and whatever the upstream signals (current
price, today's median, irradiance, SoC, boost-derived required power), the
setpoint the control loop records in the session state (`st.target_kw`) lies
within `[MIN_KW, MAX_KW] = [3.7, 11.0]` kW, and the value
`push_charging_profile` re-clamps before conversion is that same in-range
value. -/
theorem control_loop_setpoint_bounded (st : ChargePointState) (avg sunny cloudy : ℚ)
    (cur med : Option ℚ) (now battery eff : ℚ) :
    MIN_KW ≤ loop_target_kw st avg sunny cloudy cur med now battery eff ∧
    loop_target_kw st avg sunny cloudy cur med now battery eff ≤ MAX_KW ∧
    max MIN_KW (min MAX_KW (loop_target_kw st avg sunny cloudy cur med now battery eff))
      = loop_target_kw st avg sunny cloudy cur med now battery eff := by
  have hc := clamp_kw_mem (compute_target st avg sunny cloudy cur med now battery eff)
  have hb := pyRound2_bounds _ hc.1 hc.2
  unfold loop_target_kw
  refine ⟨hb.1, hb.2, ?_⟩
  rw [min_eq_right hb.2, max_eq_right hb.1]

/-- C4: For every irradiance `avg` and bounds `(sunny_kw, cloudy_kw)`: at or
below the cloudy threshold 200 W/m² the eco mapping returns `cloudy_kw`, at
or above the sunny threshold 650 W/m² it returns `sunny_kw`, and strictly in
between it returns `cloudy_kw + (avg-200)/(650-200) * (sunny_kw-cloudy_kw)`;
with `sunny=11, cloudy=3.7`: `avg=100 ↦ 3.7`, `avg=900 ↦ 11.0`,
`avg=425 ↦ 7.35`. -/
theorem eco_kw_mapping (avg sunny cloudy : ℚ) :
    (avg ≤ RAD_CLOUDY → eco_kw_from_radiation avg sunny cloudy = cloudy) ∧
    (RAD_SUNNY ≤ avg → eco_kw_from_radiation avg sunny cloudy = sunny) ∧
    (RAD_CLOUDY < avg → avg < RAD_SUNNY →
      eco_kw_from_radiation avg sunny cloudy
        = cloudy + (avg - 200) / (650 - 200) * (sunny - cloudy)) ∧
    eco_kw_from_radiation 100 11 (37/10) = 37/10 ∧
    eco_kw_from_radiation 900 11 (37/10) = 11 ∧
    eco_kw_from_radiation 425 11 (37/10) = 147/20 := by
  unfold eco_kw_from_radiation RAD_CLOUDY RAD_SUNNY
  refine ⟨?_, ?_, ?_, by norm_num, by norm_num, by norm_num⟩
  · intro h
    rw [if_pos h]
  · intro h
    rw [if_neg (by linarith), if_pos h]
  · intro h1 h2
    rw [if_neg (by linarith), if_neg (by linarith)]

/-- C7: `next_dt` returns today's `hh:mm` when that time of day is still
strictly ahead of `now` (local-minutes model: today's occurrence is
`1440·⌊now/1440⌋ + 60·hh + mm`), and tomorrow's occurrence otherwise; for
cutoff 07:00, `now` = 06:00 gives 1 hour remaining and `now` = 08:00 gives
23 hours remaining. -/
theorem next_dt_occurrence (now : ℚ) (hh mm : ℕ) :
    (now < 1440 * ⌊now / 1440⌋ + (hh * 60 + mm) →
      next_dt now hh mm = 1440 * ⌊now / 1440⌋ + (hh * 60 + mm)) ∧
    ((1440 * ⌊now / 1440⌋ + (hh * 60 + mm) : ℚ) ≤ now →
      next_dt now hh mm = 1440 * ⌊now / 1440⌋ + (hh * 60 + mm) + 1440) ∧
    hours_left 360 7 0 = 1 ∧
    hours_left 480 7 0 = 23 := by
  refine ⟨?_, ?_, ?_, ?_⟩
  · intro h
    unfold next_dt
    rw [if_neg (not_le.mpr h)]
  · intro h
    unfold next_dt
    rw [if_pos h]
  · have h0 : ⌊(360 : ℚ) / 1440⌋ = 0 := by norm_num
    unfold hours_left next_dt
    rw [h0]
    norm_num
  · have h0 : ⌊(480 : ℚ) / 1440⌋ = 0 := by norm_num
    unfold hours_left next_dt
    rw [h0]
    norm_num

/-- C9: the `median` helper is total on the empty list, returning `0.0`
rather than raising; the undefined-median (`None`) behaviour exists only
because `refresh_prices` guards with a non-emptiness check: its result is
`None` exactly when no slot falls on today's local date. -/
theorem median_total_on_empty :
    median [] = 0 ∧
    ∀ (series : List (ℤ × ℚ)) (localDate : ℤ → ℤ) (today : ℤ),
      today_median series localDate today = none ↔
        (series.filter (fun p => localDate p.1 = today)).map (fun p => p.2) = [] := by
  refine ⟨rfl, ?_⟩
  intro series f today
  simp only [today_median]
  split_ifs with h
  · simp_all
    exact h
  · simp_all

theorem clamp_kw_idem (x : ℚ) : clamp_kw (clamp_kw x) = clamp_kw x := by
  have h := clamp_kw_mem x
  rw [show clamp_kw (clamp_kw x) = max MIN_KW (min MAX_KW (clamp_kw x)) from rfl,
    min_eq_right h.2, max_eq_right h.1]

/-- C3: For every `target_kw`, the setpoint push of ocpp_cs.py converts
power to current as
`amps = clamp(target_kw, MIN_KW, MAX_KW) * 1000 / (voltage * phases)`
(for the physically meaningful `voltage ≥ 1`, `phases ≥ 1`) and rounds
half-up to the nearest 0.1 A, so the limit put in the charging profile is an
exact multiple of 0.1 A; `round_to_0p1` maps `6.05 ↦ 6.1`, `11.0 ↦ 11.0`,
`0.04 ↦ 0.0`. -/
theorem push_profile_amps_spec (target_kw : ℚ) (phases : ℤ) (voltage : ℚ)
    (hph : 1 ≤ phases) (hv : 1 ≤ voltage) :
    push_charging_profile_limit target_kw phases voltage
      = round_to_0p1 (clamp_kw target_kw * 1000 / (voltage * (phases : ℚ))) ∧
    (∃ k : ℤ, push_charging_profile_limit target_kw phases voltage = (k : ℚ) / 10) ∧
    round_to_0p1 (605/100) = 61/10 ∧
    round_to_0p1 11 = 11 ∧
    round_to_0p1 (4/100) = 0 := by
  refine ⟨?_, ⟨roundHalfUpDec (amps_from_kw (max MIN_KW (min MAX_KW target_kw))
      phases voltage * 10), rfl⟩, ?_, ?_, ?_⟩
  · have hphq : (1 : ℚ) ≤ (phases : ℚ) := by exact_mod_cast hph
    have hcm := clamp_kw_mem target_kw
    have hmin : (0 : ℚ) < MIN_KW := by norm_num [MIN_KW]
    have hpos : (0 : ℚ) ≤ clamp_kw target_kw * 1000 / (voltage * (phases : ℚ)) := by
      apply div_nonneg
      · nlinarith [hcm.1]
      · nlinarith
    unfold push_charging_profile_limit amps_from_kw
    rw [show max MIN_KW (min MAX_KW target_kw) = clamp_kw target_kw from rfl, clamp_kw_idem,
      max_eq_right hph, max_eq_right hv, max_eq_right hpos]
  · unfold round_to_0p1
    rw [roundHalfUpDec_of_nonneg _ (by norm_num)]
    norm_num
  · unfold round_to_0p1
    rw [roundHalfUpDec_of_nonneg _ (by norm_num)]
    norm_num
  · unfold round_to_0p1
    rw [roundHalfUpDec_of_nonneg _ (by norm_num)]
    norm_num

/-- Witness for C3 at `target_kw = 11`, `phases = 3`, `voltage = 230`. -/
theorem push_profile_amps_spec_witness :
    (1 : ℤ) ≤ 3 ∧ (1 : ℚ) ≤ 230 ∧
    push_charging_profile_limit 11 3 230
      = round_to_0p1 (clamp_kw 11 * 1000 / (230 * ((3 : ℤ) : ℚ))) :=
  ⟨by decide, by norm_num, (push_profile_amps_spec 11 3 230 (by decide) (by norm_num)).1⟩

/-- C10: the REST-facing push path of main.py (`push_limit_kw`, reached via
`/api/points/{cp_id}/set_kw` and `/boost`) does not clamp the requested
power to `[MIN_KW, MAX_KW]`: the ampere limit sent is
`max(6.0, round01(kw*1000/(volt*ph)))`, never below 6.0 A even at
`kw = 0`; the `set_kw` endpoint merely clamps the request to `[0, 22]` kW,
and at 22 kW the sent limit (31.9 A) differs from what the clamped OCPP path
would send. -/
theorem push_limit_kw_floor_6A (kw : ℚ) (ph : ℤ) (volt : ℚ) :
    push_limit_amps kw ph volt = max 6 (round01 (kw * 1000 / (volt * (ph : ℚ)))) ∧
    6 ≤ push_limit_amps kw ph volt ∧
    set_kw_request kw = max 0 (min 22 kw) ∧
    push_limit_amps 0 3 230 = 6 ∧
    push_limit_amps 22 3 230 = 319/10 ∧
    push_limit_amps 22 3 230 ≠ push_charging_profile_limit 22 3 230 := by
  have h5 : push_limit_amps 22 3 230 = 319/10 := by
    unfold push_limit_amps round01
    rw [show (22 : ℚ) * 1000 / (230 * ((3 : ℤ) : ℚ)) * 10 = 22000/69 by norm_num]
    rw [roundHalfEven_eq_of_gt (22000/69 : ℚ) 319 (by norm_num) (by norm_num)]
    norm_num
  have h6 : push_charging_profile_limit 22 3 230 = 159/10 := by
    unfold push_charging_profile_limit amps_from_kw clamp_kw round_to_0p1 MIN_KW MAX_KW
    rw [show max (37/10 : ℚ) (min 11 22) = 11 by norm_num [max_def, min_def]]
    rw [show max (37/10 : ℚ) (min 11 11) = 11 by norm_num [max_def, min_def]]
    rw [show max (1 : ℤ) 3 = 3 by decide, show max (1 : ℚ) 230 = 230 by norm_num [max_def]]
    rw [show max (0 : ℚ) (11 * 1000 / (230 * ((3 : ℤ) : ℚ))) = 1100/69 by
      norm_num [max_def]]
    rw [roundHalfUpDec_of_nonneg _ (by norm_num)]
    norm_num
  refine ⟨rfl, le_max_left _ _, rfl, ?_, h5, ?_⟩
  · unfold push_limit_amps round01
    rw [show (0 : ℚ) * 1000 / (230 * ((3 : ℤ) : ℚ)) * 10 = 0 by norm_num]
    rw [roundHalfEven_eq_of_lt (0 : ℚ) 0 (by norm_num) (by norm_num)]
    norm_num
  · rw [h5, h6]
    norm_num

/-- C5: the reference (median) price is computed over exactly the price
slots whose local calendar date equals today's: `None` when no slot falls on
today, and otherwise the standard median (middle of a sorted rearrangement
for odd counts, mean of the two middles for even counts) of those slots'
prices. -/
theorem today_median_spec (series : List (ℤ × ℚ)) (localDate : ℤ → ℤ) (today : ℤ) :
    (today_median series localDate today = none ↔
      series.filter (fun p => localDate p.1 = today) = []) ∧
    ∀ tv, tv = (series.filter (fun p => localDate p.1 = today)).map (fun p => p.2) →
      tv ≠ [] →
      ∃ s : List ℚ, s.Perm tv ∧ s.Sorted (· ≤ ·) ∧
        today_median series localDate today
          = some (if tv.length % 2 = 1 then s.getD (tv.length / 2) 0
                  else (s.getD (tv.length / 2 - 1) 0 + s.getD (tv.length / 2) 0) / 2) := by
  constructor
  · simp only [today_median]
    split_ifs with h
    · simp only [List.isEmpty_iff, List.map_eq_nil_iff] at h
      simp [h]
    · simp only [List.isEmpty_iff, List.map_eq_nil_iff] at h
      simp [h]
  · intro tv htv hne
    refine ⟨tv.insertionSort (· ≤ ·), List.perm_insertionSort _ _,
      List.sorted_insertionSort _ _, ?_⟩
    have hlen : (tv.insertionSort (· ≤ ·)).length = tv.length :=
      (List.perm_insertionSort _ _).length_eq
    have hne' : tv.isEmpty = false := by
      cases tv
      · exact absurd rfl hne
      · rfl
    simp only [today_median, median, ← htv, hne', Bool.false_eq_true, if_false, hlen]

/-- Witness for C5: four same-day slots with prices 10, 20, 30, 40. -/
theorem today_median_spec_witness :
    ∃ s : List ℚ, s.Perm [10, 20, 30, 40] ∧ s.Sorted (· ≤ ·) ∧
      today_median [(0, 10), (0, 20), (0, 30), (0, 40)] (fun t => t) 0
        = some (if ([10, 20, 30, 40] : List ℚ).length % 2 = 1
                then s.getD (([10, 20, 30, 40] : List ℚ).length / 2) 0
                else (s.getD (([10, 20, 30, 40] : List ℚ).length / 2 - 1) 0
                      + s.getD (([10, 20, 30, 40] : List ℚ).length / 2) 0) / 2) :=
  (today_median_spec [(0, 10), (0, 20), (0, 30), (0, 40)] (fun t => t) 0).2
    [10, 20, 30, 40] (by decide) (by decide)

theorem pyRound3_nonneg (x : ℚ) (h : 0 ≤ x) : 0 ≤ pyRound3 x := by
  have h1 : (0 : ℤ) ≤ roundHalfEven (x * 1000) := roundHalfEven_nonneg _ (by linarith)
  have h2 : (0 : ℚ) ≤ (roundHalfEven (x * 1000) : ℚ) := by exact_mod_cast h1
  unfold pyRound3
  linarith

/-- C2 counterexample: start a transaction at meter register 0 Wh, then
report an energy register of 0.4 Wh (0.0004 kWh): `on_meter` stores
`session_kwh = round(0.0004, 3) = 0`, not the claimed raw delta
`max(0, registerKwh - sessionStartEnergyKwh) = 0.0004`. -/
theorem session_energy_rounding_cex :
    (on_meter_energy (on_start_tx ⟨false, none, none, none⟩ 0)
        (energy_from_sample (4/10) true)).session_kwh = some 0 ∧
    (on_meter_energy (on_start_tx ⟨false, none, none, none⟩ 0)
        (energy_from_sample (4/10) true)).session_kwh
      ≠ some (max 0 (energy_from_sample (4/10) true - 0)) := by
  have he : energy_from_sample (4/10) true = 1/2500 := by
    unfold energy_from_sample
    norm_num [max_def]
  have hs : on_start_tx ⟨false, none, none, none⟩ 0
      = (⟨true, some 0, some 0, none⟩ : SessionState) := by
    unfold on_start_tx
    norm_num [max_def]
  have hm : on_meter_energy (⟨true, some 0, some 0, none⟩ : SessionState) (1/2500)
      = ⟨true, some 0, some (pyRound3 (max 0 ((1 : ℚ)/2500 - 0))), some (1/2500)⟩ := by
    unfold on_meter_energy
    simp
  have hp : pyRound3 (max 0 ((1 : ℚ)/2500 - 0)) = 0 := by
    rw [show max 0 ((1 : ℚ)/2500 - 0) = 1/2500 by norm_num [max_def]]
    unfold pyRound3
    rw [show (1 : ℚ)/2500 * 1000 = 2/5 by norm_num]
    rw [roundHalfEven_eq_of_lt (2/5 : ℚ) 0 (by norm_num) (by norm_num)]
    norm_num
  rw [he, hs, hm]
  constructor
  · show some (pyRound3 (max 0 ((1 : ℚ)/2500 - 0))) = some 0
    rw [hp]
  · show some (pyRound3 (max 0 ((1 : ℚ)/2500 - 0))) ≠ some (max 0 ((1 : ℚ)/2500 - 0))
    rw [hp]
    intro hcontra
    rw [Option.some_inj] at hcontra
    rw [show max 0 ((1 : ℚ)/2500 - 0) = 1/2500 by norm_num [max_def]] at hcontra
    norm_num at hcontra

/-- C2 amended: whenever a transaction is active with a known start
register, a MeterValues energy-register report sets `session_kwh` to
`round(max(0, registerKwh - sessionStartEnergyKwh), 3)` — the claimed delta
rounded to 3 decimal places; it is set to 0 at StartTransaction; it is never
negative (also for stale or repeated register values); and replaying the
identical report a second time leaves the state exactly as after a single
application. -/
theorem session_energy_rounded_delta (st : SessionState) (reg start : ℚ)
    (htx : st.tx_active = true) (hstart : st.session_start_kwh_reg = some start) :
    (on_meter_energy st reg).session_kwh = some (pyRound3 (max 0 (reg - start))) ∧
    (∀ w, (on_start_tx st w).session_kwh = some 0) ∧
    (∀ q, (on_meter_energy st reg).session_kwh = some q → 0 ≤ q) ∧
    on_meter_energy (on_meter_energy st reg) reg = on_meter_energy st reg := by
  have hval : (on_meter_energy st reg).session_kwh = some (pyRound3 (max 0 (reg - start))) := by
    unfold on_meter_energy
    simp [htx, hstart]
  refine ⟨hval, fun w => rfl, ?_, ?_⟩
  · intro q hq
    rw [hval, Option.some_inj] at hq
    rw [← hq]
    exact pyRound3_nonneg _ (le_max_left _ _)
  · unfold on_meter_energy
    simp [htx, hstart]

/-- Witness for C2 at a transaction started with register 5 kWh and a
report of 7 kWh. -/
theorem session_energy_rounded_delta_witness :
    (on_meter_energy (⟨true, some 5, some 0, none⟩ : SessionState) 7).session_kwh
      = some (pyRound3 (max 0 ((7 : ℚ) - 5))) ∧
    on_meter_energy (on_meter_energy (⟨true, some 5, some 0, none⟩ : SessionState) 7) 7
      = on_meter_energy (⟨true, some 5, some 0, none⟩ : SessionState) 7 :=
  ⟨(session_energy_rounded_delta ⟨true, some 5, some 0, none⟩ 7 5 rfl rfl).1,
   (session_energy_rounded_delta ⟨true, some 5, some 0, none⟩ 7 5 rfl rfl).2.2.2⟩

theorem run_notify_of_notified (target : ℤ) (obs : List (Option ℤ)) :
    run_notify true target obs = (true, 0) := by
  induction obs with
  | nil => rfl
  | cons o rest ih =>
    unfold run_notify notify_step
    cases o <;> simp [ih]

theorem run_notify_false_crossing (target : ℤ) (obs : List (Option ℤ))
    (hex : ∃ s, some s ∈ obs ∧ target ≤ s) :
    run_notify false target obs = (true, 1) := by
  induction obs with
  | nil => simp at hex
  | cons o rest ih =>
    cases o with
    | none =>
      have hex' : ∃ s, some s ∈ rest ∧ target ≤ s := by
        rcases hex with ⟨s, hmem, hs⟩
        rcases List.mem_cons.mp hmem with h | h
        · exact Option.noConfusion h
        · exact ⟨s, h, hs⟩
      simp [run_notify, notify_step, ih hex']
    | some v =>
      by_cases hv : target ≤ v
      · simp [run_notify, notify_step, hv, run_notify_of_notified]
      · have hex' : ∃ s, some s ∈ rest ∧ target ≤ s := by
          rcases hex with ⟨s, hmem, hs⟩
          rcases List.mem_cons.mp hmem with h | h
          · exact absurd (Option.some_inj.mp h ▸ hs) hv
          · exact ⟨s, h, hs⟩
        simp [run_notify, notify_step, hv, ih hex']

theorem run_notify_false_no_crossing (target : ℤ) (obs : List (Option ℤ))
    (hnc : ∀ s, some s ∈ obs → ¬target ≤ s) :
    run_notify false target obs = (false, 0) := by
  induction obs with
  | nil => rfl
  | cons o rest ih =>
    have hrest : ∀ s, some s ∈ rest → ¬target ≤ s :=
      fun s hm => hnc s (List.mem_cons_of_mem _ hm)
    cases o with
    | none => simp [run_notify, notify_step, ih hrest]
    | some v =>
      have hv : ¬target ≤ v := hnc v (List.mem_cons_self _ _)
      simp [run_notify, notify_step, hv, ih hrest]

/-- C8: within one boost activation (flag initially false, boost enabled
throughout), the goal-reached notification is scheduled at most once over
any sequence of control-loop passes; if some pass observes
`current_soc ≥ boost_target_soc` then exactly one notification is scheduled
and the flag ends up set; and once the flag is set no further pass of the
activation schedules anything. -/
theorem boost_notify_once (target : ℤ) (obs : List (Option ℤ)) :
    (run_notify false target obs).2 ≤ 1 ∧
    ((∃ s, some s ∈ obs ∧ target ≤ s) → run_notify false target obs = (true, 1)) ∧
    (∀ obs2, run_notify true target obs2 = (true, 0)) := by
  refine ⟨?_, fun hex => run_notify_false_crossing target obs hex,
    run_notify_of_notified target⟩
  by_cases hex : ∃ s, some s ∈ obs ∧ target ≤ s
  · rw [run_notify_false_crossing target obs hex]
  · have hnc : ∀ s, some s ∈ obs → ¬target ≤ s := by
      intro s hm hs
      exact hex ⟨s, hm, hs⟩
    rw [run_notify_false_no_crossing target obs hnc]
    simp

/-- Witness for C8: SoC readings 50 %, 80 %, 90 % against target 80 % —
the crossing is observed, so exactly one notification is scheduled. -/
theorem boost_notify_once_witness :
    run_notify false 80 [some 50, some 80, some 90] = (true, 1) :=
  (boost_notify_once 80 [some 50, some 80, some 90]).2.1
    ⟨80, by decide, by decide⟩

/-- C6 amended: every upstream failure mode of the price fetch (timeout,
non-2xx, malformed JSON → the `.error` case) yields an empty series, as do a
missing `data` key and a non-list `data` value; a malformed item is skipped
without discarding the rest; and when the price signal is absent (no current
price or no median) the price-mode *base* target falls back to `MIN_KW`,
the final target being that base possibly raised by the 100 %-by-07:00
requirement. -/
theorem fetch_prices_failure_safe :
    (∀ e now, fetch_prices_ct_per_kwh (.error e) now = []) ∧
    (∀ now fields, (Json.obj fields).get "data" = none →
      fetch_prices_ct_per_kwh (.ok (.obj fields)) now = []) ∧
    (∀ now fields d, (Json.obj fields).get "data" = some d →
      (∀ items, d ≠ .arr items) →
      fetch_prices_ct_per_kwh (.ok (.obj fields)) now = []) ∧
    (∀ now pre post bad, parse_item bad = [] →
      fetch_prices_ct_per_kwh (.ok (.obj [("data", .arr (pre ++ bad :: post))])) now
        = fetch_prices_ct_per_kwh (.ok (.obj [("data", .arr (pre ++ post))])) now) ∧
    (∀ st cur med now battery eff, cur = none ∨ med = none →
      price_target st cur med now battery eff
        = if 0 < hours_left now 7 0
          then Max.max MIN_KW
            (req_kw (max 0 (100 - soc_now st)) (hours_left now 7 0) battery eff)
          else MIN_KW) := by
  refine ⟨fun e now => rfl, ?_, ?_, ?_, ?_⟩
  · intro now fields h
    simp [fetch_prices_ct_per_kwh, h]
  · intro now fields d hd hne
    cases d
    case arr items => exact absurd rfl (hne items)
    all_goals simp [fetch_prices_ct_per_kwh, hd]
  · intro now pre post bad hbad
    simp [fetch_prices_ct_per_kwh, Json.get, List.lookup, hbad,
      List.flatMap_append, List.flatMap_cons]
  · intro st cur med now battery eff h
    rcases h with rfl | rfl
    · cases med <;> rfl
    · cases cur <;> rfl

/-- Witness for C6 at a concrete malformed item (`null` inside the `data`
list is skipped, leaving the two well-formed one-hour items intact). -/
theorem fetch_prices_failure_safe_witness :
    fetch_prices_ct_per_kwh
        (.ok (.obj [("data", .arr ([Json.obj [("start_timestamp", .num 0),
            ("end_timestamp", .num 3600000), ("marketprice", .num 100)]]
          ++ Json.null ::
            [Json.obj [("start_timestamp", .num 3600000),
              ("end_timestamp", .num 7200000), ("marketprice", .num 200)]]))])) 0
      = fetch_prices_ct_per_kwh
        (.ok (.obj [("data", .arr ([Json.obj [("start_timestamp", .num 0),
            ("end_timestamp", .num 3600000), ("marketprice", .num 100)]]
          ++ [Json.obj [("start_timestamp", .num 3600000),
              ("end_timestamp", .num 7200000), ("marketprice", .num 200)]]))])) 0 ∧
    price_target ⟨Mode.price, 0, none, some 0, false, 7, 0, 100, false⟩ none none 360 60 1
      = if 0 < hours_left 360 7 0
        then Max.max MIN_KW
          (req_kw (max 0 (100 - soc_now ⟨Mode.price, 0, none, some 0, false, 7, 0, 100, false⟩))
            (hours_left 360 7 0) 60 1)
        else MIN_KW :=
  ⟨(fetch_prices_failure_safe).2.2.2.1 0
      [Json.obj [("start_timestamp", .num 0), ("end_timestamp", .num 3600000),
        ("marketprice", .num 100)]]
      [Json.obj [("start_timestamp", .num 3600000), ("end_timestamp", .num 7200000),
        ("marketprice", .num 200)]]
      Json.null rfl,
   (fetch_prices_failure_safe).2.2.2.2
      ⟨Mode.price, 0, none, some 0, false, 7, 0, 100, false⟩ none none 360 60 1
      (Or.inl rfl)⟩

/-- C6 counterexample: with the price fetch failing (empty series, hence no
current price and no median), a price-mode charge point at SoC 0 one hour
before the 07:00 cutoff receives target 11.0 kW (clamped from the
deadline-driven 60 kW requirement), not the minimum power `MIN_KW = 3.7`:
the fallback to minimum power applies only to the price-comparison base,
not to the final price-mode target. -/
theorem price_fallback_not_min_cex :
    fetch_prices_ct_per_kwh (.error "timeout") 0 = [] ∧
    current_price (fetch_prices_ct_per_kwh (.error "timeout") 0) 0 = none ∧
    today_median (fetch_prices_ct_per_kwh (.error "timeout") 0) (fun t => t) 0 = none ∧
    loop_target_kw ⟨Mode.price, 0, none, some 0, false, 7, 0, 100, false⟩ 0 11 (37/10)
      (current_price (fetch_prices_ct_per_kwh (.error "timeout") 0) 0)
      (today_median (fetch_prices_ct_per_kwh (.error "timeout") 0) (fun t => t) 0)
      360 60 1 = 11 ∧
    (11 : ℚ) ≠ MIN_KW := by
  have hcur : current_price (fetch_prices_ct_per_kwh (.error "timeout") 0) 0 = none := rfl
  have hmed : today_median (fetch_prices_ct_per_kwh (.error "timeout") 0)
      (fun t => t) 0 = none := rfl
  have hhl : hours_left 360 7 0 = 1 := by
    have h0 : ⌊(360 : ℚ) / 1440⌋ = 0 := by norm_num
    unfold hours_left next_dt
    rw [h0]
    norm_num
  have hreq : req_kw 100 1 60 1 = 60 := by
    unfold req_kw
    norm_num [max_def, min_def]
  have hsoc : soc_now ⟨Mode.price, 0, none, some 0, false, 7, 0, 100, false⟩ = 0 := by
    unfold soc_now
    simp
  have hpt : price_target ⟨Mode.price, 0, none, some 0, false, 7, 0, 100, false⟩
      none none 360 60 1 = 60 := by
    rw [show price_target ⟨Mode.price, 0, none, some 0, false, 7, 0, 100, false⟩
          none none 360 60 1
        = (if 0 < hours_left 360 7 0
           then Max.max MIN_KW
             (req_kw
               (max 0 (100 - soc_now ⟨Mode.price, 0, none, some 0, false, 7, 0, 100, false⟩))
               (hours_left 360 7 0) 60 1)
           else MIN_KW) from rfl]
    rw [hhl, hsoc]
    rw [if_pos (by norm_num : (0 : ℚ) < 1)]
    rw [show max 0 ((100 : ℚ) - 0) = 100 by norm_num [max_def]]
    rw [hreq]
    norm_num [MIN_KW, max_def]
  refine ⟨rfl, hcur, hmed, ?_, by norm_num [MIN_KW]⟩
  rw [show loop_target_kw ⟨Mode.price, 0, none, some 0, false, 7, 0, 100, false⟩ 0 11 (37/10)
      (current_price (fetch_prices_ct_per_kwh (.error "timeout") 0) 0)
      (today_median (fetch_prices_ct_per_kwh (.error "timeout") 0) (fun t => t) 0)
      360 60 1
    = pyRound2 (clamp_kw (price_target ⟨Mode.price, 0, none, some 0, false, 7, 0, 100, false⟩
        none none 360 60 1)) from rfl]
  rw [hpt]
  rw [show clamp_kw 60 = 11 by norm_num [clamp_kw, MIN_KW, MAX_KW, max_def, min_def]]
  unfold pyRound2
  rw [show (11 : ℚ) * 100 = 1100 by norm_num]
  rw [roundHalfEven_eq_of_lt 1100 1100 (by norm_num) (by norm_num)]
  norm_num

/-- Witness for C4 at irradiances 150 (cloudy), 700 (sunny) and 425
(interpolated). -/
theorem eco_kw_mapping_witness :
    eco_kw_from_radiation 150 11 (37/10) = 37/10 ∧
    eco_kw_from_radiation 700 11 (37/10) = 11 ∧
    eco_kw_from_radiation 425 11 (37/10)
      = 37/10 + (425 - 200) / (650 - 200) * (11 - 37/10) :=
  ⟨(eco_kw_mapping 150 11 (37/10)).1 (by norm_num [RAD_CLOUDY]),
   (eco_kw_mapping 700 11 (37/10)).2.1 (by norm_num [RAD_SUNNY]),
   (eco_kw_mapping 425 11 (37/10)).2.2.1 (by norm_num [RAD_CLOUDY]) (by norm_num [RAD_SUNNY])⟩

/-- Witness for C7 at 06:00 (cutoff still ahead today) and 08:00 (cutoff
already passed, tomorrow's occurrence). -/
theorem next_dt_occurrence_witness :
    next_dt 360 7 0 = 1440 * (⌊(360 : ℚ) / 1440⌋ : ℚ) + (((7 : ℕ) : ℚ) * 60 + ((0 : ℕ) : ℚ)) ∧
    next_dt 480 7 0
      = 1440 * (⌊(480 : ℚ) / 1440⌋ : ℚ) + (((7 : ℕ) : ℚ) * 60 + ((0 : ℕ) : ℚ)) + 1440 :=
  ⟨(next_dt_occurrence 360 7 0).1 (by norm_num),
   (next_dt_occurrence 480 7 0).2.1 (by norm_num)⟩

/-- Witness for C1 at a max-mode charge point with arbitrary signals. -/
theorem control_loop_setpoint_bounded_witness :
    MIN_KW ≤ loop_target_kw ⟨Mode.max, 100, none, none, false, 7, 0, 100, false⟩
      0 11 (37/10) none none 0 60 1 :=
  (control_loop_setpoint_bounded ⟨Mode.max, 100, none, none, false, 7, 0, 100, false⟩
    0 11 (37/10) none none 0 60 1).1

/-- Witness for C9: the empty-list median itself. -/
theorem median_total_on_empty_witness : median [] = 0 :=
  median_total_on_empty.1

/-- Witness for C10 at the zero-power request. -/
theorem push_limit_kw_floor_6A_witness : push_limit_amps 0 3 230 = 6 :=
  (push_limit_kw_floor_6A 0 3 230).2.2.2.1

end EnergyManager
